import Mathlib

/-!
Verification of the enablement gate and action dispatcher of
`modules/commands.py` (GitGutter). The Python code is shallowly embedded:
the editor view, user settings and git handler are abstracted as a record
of the boolean queries the code performs, and the command object's mutable
state (`_state` plus the persisted `git_gutter_is_enabled` view setting)
is threaded explicitly. Side effects (clearing the diff display,
invalidating cached files, debug logging, the git queries with their
`validate` argument) are recorded in an effect structure.
-/

namespace GitGutter

/-- Modelled from the spec: the external `events` module is not part of the
given source; the spec describes it as owning the integer bit values of the
lifecycle-event flags LOAD, ACTIVATED, POST_SAVE and MODIFIED of an integer
bitmask. We model them as distinct single bits. -/
def events.LOAD : Nat := 1

/-- Modelled from the spec: `events.MODIFIED` bitmask flag. -/
def events.MODIFIED : Nat := 2

/-- Modelled from the spec: `events.ACTIVATED` bitmask flag. -/
def events.ACTIVATED : Nat := 4

/-- Modelled from the spec: `events.POST_SAVE` bitmask flag. -/
def events.POST_SAVE : Nat := 8

/-- The queries `is_enabled` performs against the view, the settings and the
git handler.  Each field is the truthiness of the corresponding Python
expression; `work_tree` and `version` take the `validate` argument the code
passes them. -/
structure ViewEnv where
  /-- `self.settings.get('enable')` -/
  enable : Bool
  /-- `view.window()` is truthy, i.e. the view is attached to a window -/
  window : Bool
  /-- `view.is_scratch()` -/
  is_scratch : Bool
  /-- `view.is_read_only()` -/
  is_read_only : Bool
  /-- `view.settings().get('is_widget')` is truthy -/
  is_widget : Bool
  /-- `view.settings().get("repl")` is truthy -/
  repl : Bool
  /-- `view.encoding() == 'Hexadecimal'` -/
  hexadecimal : Bool
  /-- `self.git_handler.work_tree(validate)` is truthy -/
  work_tree : Bool → Bool
  /-- `self.git_handler.version(validate)` is truthy -/
  version : Bool → Bool

/-- The truthiness of
`queued_events is None or queued_events & (events.LOAD | events.ACTIVATED | events.POST_SAVE)`;
`none` models the `events` key being absent from `kwargs`. -/
def validateFlag (queued_events : Option Nat) : Bool :=
  match queued_events with
  | none => true
  | some e =>
      decide (e &&& (events.LOAD ||| events.ACTIVATED ||| events.POST_SAVE) ≠ 0)

/-- The `if/elif` chain of `is_enabled` (lines 58-91): the computed state
code together with the lists of `validate` flags passed to
`git_handler.work_tree` and `git_handler.version` respectively. -/
def evalState (env : ViewEnv) (queued_events : Option Nat) :
    Nat × List Bool × List Bool :=
  if !env.enable then (1, [], [])
  else if !env.window then (2, [], [])
  else if env.is_scratch then (3, [], [])
  else if env.is_read_only then (4, [], [])
  else if env.is_widget then (5, [], [])
  else if env.repl then (6, [], [])
  else if env.hexadecimal then (7, [], [])
  else
    let validate := validateFlag queued_events
    if !env.work_tree validate then (8, [validate], [])
    else if !env.version validate then (9, [validate], [validate])
    else (0, [validate], [validate])

/-- The state code computed by one evaluation of `is_enabled`. -/
def computeState (env : ViewEnv) (queued_events : Option Nat) : Nat :=
  (evalState env queued_events).1

/-- The `validate` flags passed to `work_tree` and `version` during one
evaluation of `is_enabled`. -/
def gitQueries (env : ViewEnv) (queued_events : Option Nat) :
    List Bool × List Bool :=
  (evalState env queued_events).2

/-- The mutable state of a `GitGutterCommand` object together with the one
view-settings key it writes: `_state` and `git_gutter_is_enabled`
(`none` models the setting being absent). -/
structure Session where
  st : Int
  gg_enabled : Option Bool
  deriving Repr, DecidableEq

/-- `__init__` sets `self._state = -1`; the `git_gutter_is_enabled` view
setting starts out absent. -/
def initSession : Session := { st := -1, gg_enabled := none }

/-- The side effects of one evaluation of `is_enabled`: how often
`show_diff_handler.clear()`, `git_handler.invalidate_view_file()` and
`utils.log_message` were called, and the `validate` flags of the
`work_tree`/`version` queries. -/
structure Effects where
  clear_calls : Nat
  invalidate_view_file_calls : Nat
  log_calls : Nat
  work_tree_calls : List Bool
  version_calls : List Bool
  deriving Repr, DecidableEq

/-- The outcome of one evaluation of `is_enabled`: the returned boolean, the
session afterwards and the side effects. -/
structure CallResult where
  valid : Bool
  session : Session
  eff : Effects
  deriving Repr, DecidableEq

namespace GitGutterCommand

/-- `GitGutterCommand.is_enabled` (lines 55-108): compute the state code,
then on a state change perform the disable side effects and persist
`state == 0` into the `git_gutter_is_enabled` view setting and `state` into
`self._state`; return `state == 0`.  `debug` is `settings.get('debug')`. -/
def is_enabled (env : ViewEnv) (debug : Bool) (queued_events : Option Nat)
    (s : Session) : CallResult :=
  let state := computeState env queued_events
  let q := gitQueries env queued_events
  let valid := decide (state = 0)
  if s.st ≠ (state : Int) then
    { valid := valid
      session := { st := (state : Int), gg_enabled := some valid }
      eff :=
        { clear_calls := if valid then 0 else 1
          invalidate_view_file_calls := if valid then 0 else 1
          log_calls := if valid then 0 else if debug then 1 else 0
          work_tree_calls := q.1
          version_calls := q.2 } }
  else
    { valid := valid
      session := s
      eff :=
        { clear_calls := 0
          invalidate_view_file_calls := 0
          log_calls := 0
          work_tree_calls := q.1
          version_calls := q.2 } }

end GitGutterCommand

/-- The handler functions of the sub-command dispatch table, one constructor
per collaborator referenced on lines 34-43. -/
inductive Handler
  | goto_next_change
  | goto_prev_change
  | compare_set_against_commit
  | compare_set_against_file_commit
  | compare_set_against_branch
  | compare_set_against_tag
  | compare_set_against_head
  | compare_set_against_origin
  | compare_show_compare
  | popup_show_diff_popup
  deriving Repr, DecidableEq

/-- The keyword arguments the commands look at: `kwargs.get('action')` and
`kwargs.get('events')`; `none` models an absent key. -/
structure Kwargs where
  action : Option String
  events : Option Nat
  deriving Repr, DecidableEq

namespace GitGutterCommand

/-- `GitGutterCommand.commands` (lines 33-44): the static map of sub
commands to their implementation, looked up with `dict.get`. -/
def commands : List (String × Handler) :=
  [("jump_to_next_change", .goto_next_change),
   ("jump_to_prev_change", .goto_prev_change),
   ("compare_against_commit", .compare_set_against_commit),
   ("compare_against_file_commit", .compare_set_against_file_commit),
   ("compare_against_branch", .compare_set_against_branch),
   ("compare_against_tag", .compare_set_against_tag),
   ("compare_against_head", .compare_set_against_head),
   ("compare_against_origin", .compare_set_against_origin),
   ("show_compare", .compare_show_compare),
   ("show_diff_popup", .popup_show_diff_popup)]

/-- Truthiness of the `action` value in `if action:`: `None` and the empty
string are falsy, every other string is truthy. -/
def truthyAction : Option String → Bool
  | none => false
  | some a => decide (a ≠ "")

/-- The observable outcome of `GitGutterCommand.run`: which handler was
dispatched to (with the full kwargs the handler receives alongside the
command object), and how often `git_handler.invalidate_git_file()` and
`show_diff_handler.run()` were called. -/
structure RunEffects where
  dispatched_to : Option (Handler × Kwargs)
  invalidate_git_file_calls : Nat
  show_diff_run_calls : Nat
  deriving Repr, DecidableEq

/-- `GitGutterCommand.run` (lines 110-124).  A truthy `action` is looked up
in `commands`; a failed lookup trips the `assert` (modelled as `.error`,
with no collaborator invoked).  Otherwise the default path invalidates the
git file unless the events mask (defaulting to 0) contains LOAD or
MODIFIED, and always runs the diff display refresh. -/
def run (kw : Kwargs) : Except String RunEffects :=
  if truthyAction kw.action then
    match commands.lookup (kw.action.getD "") with
    | some command_func =>
        .ok { dispatched_to := some (command_func, kw)
              invalidate_git_file_calls := 0
              show_diff_run_calls := 0 }
    | none => .error "Unhandled sub command"
  else
    let queued_events := kw.events.getD 0
    .ok { dispatched_to := none
          invalidate_git_file_calls :=
            if queued_events &&& (events.LOAD ||| events.MODIFIED) = 0
            then 1 else 0
          show_diff_run_calls := 1 }

end GitGutterCommand

namespace GitGutterBaseCommand

/-- `GitGutterBaseCommand.is_enabled` (lines 128-129): read the persisted
`git_gutter_is_enabled` view setting back, defaulting to `False`. -/
def is_enabled (gg_enabled : Option Bool) : Bool :=
  gg_enabled.getD false

end GitGutterBaseCommand

/-- The wrapper command classes of lines 132-178, one constructor per
subclass of `GitGutterBaseCommand` that defines `run`. -/
inductive WrapperCmd
  | GitGutterShowCompareCommand
  | GitGutterCompareHeadCommand
  | GitGutterCompareOriginCommand
  | GitGutterCompareCommitCommand
  | GitGutterCompareFileCommitCommand
  | GitGutterCompareBranchCommand
  | GitGutterCompareTagCommand
  | GitGutterNextChangeCommand
  | GitGutterPrevChangeCommand
  deriving Repr, DecidableEq

/-- All wrapper command classes with a `run` method, in source order. -/
def allWrappers : List WrapperCmd :=
  [.GitGutterShowCompareCommand, .GitGutterCompareHeadCommand,
   .GitGutterCompareOriginCommand, .GitGutterCompareCommitCommand,
   .GitGutterCompareFileCommitCommand, .GitGutterCompareBranchCommand,
   .GitGutterCompareTagCommand, .GitGutterNextChangeCommand,
   .GitGutterPrevChangeCommand]

/-- The fixed action string each wrapper passes to the umbrella command. -/
def wrapperAction : WrapperCmd → String
  | .GitGutterShowCompareCommand => "show_compare"
  | .GitGutterCompareHeadCommand => "compare_against_head"
  | .GitGutterCompareOriginCommand => "compare_against_origin"
  | .GitGutterCompareCommitCommand => "compare_against_commit"
  | .GitGutterCompareFileCommitCommand => "compare_against_file_commit"
  | .GitGutterCompareBranchCommand => "compare_against_branch"
  | .GitGutterCompareTagCommand => "compare_against_tag"
  | .GitGutterNextChangeCommand => "jump_to_next_change"
  | .GitGutterPrevChangeCommand => "jump_to_prev_change"

/-- Each wrapper's `run` does nothing but
`self.view.run_command('git_gutter', {'action': <fixed string>})`:
the invoked command name and its argument dictionary. -/
def wrapperRun (w : WrapperCmd) : String × Kwargs :=
  ("git_gutter", { action := some (wrapperAction w), events := none })

/-! Concrete view environments used to exercise the definitions. -/

/-- A view for which every disabling condition is false and both git
queries succeed. -/
def envAllGood : ViewEnv :=
  { enable := true, window := true, is_scratch := false,
    is_read_only := false, is_widget := false, repl := false,
    hexadecimal := false, work_tree := fun _ => true,
    version := fun _ => true }

/-- `envAllGood` with the feature switched off in the user settings. -/
def envDisabled : ViewEnv := { envAllGood with enable := false }

/-! Helper lemmas. -/

/-- Every `validate` flag recorded by `gitQueries` is `validateFlag`. -/
theorem mem_gitQueries (env : ViewEnv) (qe : Option Nat) (b : Bool)
    (h : b ∈ (gitQueries env qe).1 ∨ b ∈ (gitQueries env qe).2) :
    b = validateFlag qe := by
  simp only [gitQueries, evalState] at h
  split_ifs at h <;> simp_all

/-- The state code is always one of 0..9. -/
theorem computeState_le_nine (env : ViewEnv) (qe : Option Nat) :
    computeState env qe ≤ 9 := by
  simp only [computeState, evalState]
  split_ifs <;> norm_num

/-! Claim theorems. -/

/-- C1: with all higher-priority conditions false, each of the nine
disabling conditions yields its state code 1-9, in the priority order
disabled-by-setting, unattached, scratch, read-only, widget, REPL,
Hexadecimal, no working tree, git unavailable, and `is_enabled` returns
`false`; with all nine false and `work_tree`/`version` truthy the state is
0 and `is_enabled` returns `true`. -/
theorem C1_state_priority (env : ViewEnv) (debug : Bool) (qe : Option Nat)
    (s : Session) :
    ((GitGutterCommand.is_enabled env debug qe s).valid
        = decide (computeState env qe = 0)) ∧
    (env.enable = false → computeState env qe = 1) ∧
    (env.enable = true → env.window = false → computeState env qe = 2) ∧
    (env.enable = true → env.window = true → env.is_scratch = true →
        computeState env qe = 3) ∧
    (env.enable = true → env.window = true → env.is_scratch = false →
        env.is_read_only = true → computeState env qe = 4) ∧
    (env.enable = true → env.window = true → env.is_scratch = false →
        env.is_read_only = false → env.is_widget = true →
        computeState env qe = 5) ∧
    (env.enable = true → env.window = true → env.is_scratch = false →
        env.is_read_only = false → env.is_widget = false → env.repl = true →
        computeState env qe = 6) ∧
    (env.enable = true → env.window = true → env.is_scratch = false →
        env.is_read_only = false → env.is_widget = false → env.repl = false →
        env.hexadecimal = true → computeState env qe = 7) ∧
    (env.enable = true → env.window = true → env.is_scratch = false →
        env.is_read_only = false → env.is_widget = false → env.repl = false →
        env.hexadecimal = false → env.work_tree (validateFlag qe) = false →
        computeState env qe = 8) ∧
    (env.enable = true → env.window = true → env.is_scratch = false →
        env.is_read_only = false → env.is_widget = false → env.repl = false →
        env.hexadecimal = false → env.work_tree (validateFlag qe) = true →
        env.version (validateFlag qe) = false → computeState env qe = 9) ∧
    (env.enable = true → env.window = true → env.is_scratch = false →
        env.is_read_only = false → env.is_widget = false → env.repl = false →
        env.hexadecimal = false → env.work_tree (validateFlag qe) = true →
        env.version (validateFlag qe) = true →
        computeState env qe = 0 ∧
          (GitGutterCommand.is_enabled env debug qe s).valid = true) ∧
    (computeState env qe ≠ 0 →
        (GitGutterCommand.is_enabled env debug qe s).valid = false) := by
  have hv : (GitGutterCommand.is_enabled env debug qe s).valid
      = decide (computeState env qe = 0) := by
    unfold GitGutterCommand.is_enabled
    by_cases h : s.st = ((computeState env qe : Nat) : Int) <;> simp [h]
  refine ⟨hv, ?_, ?_, ?_, ?_, ?_, ?_, ?_, ?_, ?_, ?_, ?_⟩ <;>
    intros <;> simp_all [computeState, evalState]

/-- Witness for C1 at concrete views: the disabled-in-settings view gets
state 1, the all-good view gets state 0 and an enabled result. -/
theorem C1_state_priority_witness :
    computeState envDisabled none = 1 ∧
    computeState envAllGood none = 0 ∧
    (GitGutterCommand.is_enabled envAllGood true none initSession).valid
      = true := by
  obtain ⟨-, -, -, -, -, -, -, -, -, -, h10, -⟩ :=
    C1_state_priority envAllGood true none initSession
  have h0 := h10 rfl rfl rfl rfl rfl rfl rfl rfl rfl
  exact ⟨(C1_state_priority envDisabled true none initSession).2.1 rfl,
    h0.1, h0.2⟩

/-- C7: `run(action='jump_to_next_change')` dispatches to exactly the
`goto.next_change` collaborator, passing the kwargs bag along, and invokes
no other collaborator. -/
theorem C7_jump_to_next_change (ev : Option Nat) :
    GitGutterCommand.run { action := some "jump_to_next_change", events := ev }
      = .ok { dispatched_to := some (.goto_next_change,
                { action := some "jump_to_next_change", events := ev })
              invalidate_git_file_calls := 0
              show_diff_run_calls := 0 } := rfl

/-- C10: a falsy `action` (empty string or absent) does not dispatch and
does not trip the unknown-action assertion; it takes the default refresh
path exactly as if `action` were absent. -/
theorem C10_falsy_action (ev : Option Nat) :
    GitGutterCommand.run { action := some "", events := ev }
        = GitGutterCommand.run { action := none, events := ev } ∧
    ∃ r, GitGutterCommand.run { action := some "", events := ev } = .ok r ∧
      r.dispatched_to = none ∧ r.show_diff_run_calls = 1 := by
  exact ⟨rfl, _, rfl, rfl, rfl⟩

/-- C5: `run` with no action invalidates the git file exactly when the
events mask (defaulting to 0) contains neither LOAD nor MODIFIED, and
always runs the diff display refresh exactly once. -/
theorem C5_default_run (ev : Option Nat) :
    ∃ r, GitGutterCommand.run { action := none, events := ev } = .ok r ∧
      r.dispatched_to = none ∧
      r.show_diff_run_calls = 1 ∧
      r.invalidate_git_file_calls =
        (if (ev.getD 0) &&& (events.LOAD ||| events.MODIFIED) = 0
         then 1 else 0) := by
  exact ⟨_, rfl, rfl, rfl, rfl⟩

/-- C2: with unchanged underlying conditions, a second `is_enabled` call
returns the same boolean and triggers none of the clear / invalidate / log
side effects; the first call triggers clear and invalidate exactly once
(and the debug log once, when debug is on) exactly on a transition from a
different previous `_state` into a disabled state, and nothing when the
computed state equals the stored `_state`. -/
theorem C2_idempotent (env : ViewEnv) (debug : Bool) (qe : Option Nat)
    (s : Session) :
    ((GitGutterCommand.is_enabled env debug qe
          (GitGutterCommand.is_enabled env debug qe s).session).valid
        = (GitGutterCommand.is_enabled env debug qe s).valid) ∧
    ((GitGutterCommand.is_enabled env debug qe
          (GitGutterCommand.is_enabled env debug qe s).session).eff.clear_calls
        = 0) ∧
    ((GitGutterCommand.is_enabled env debug qe
          (GitGutterCommand.is_enabled env debug qe
            s).session).eff.invalidate_view_file_calls = 0) ∧
    ((GitGutterCommand.is_enabled env debug qe
          (GitGutterCommand.is_enabled env debug qe s).session).eff.log_calls
        = 0) ∧
    (s.st ≠ ((computeState env qe : Nat) : Int) → computeState env qe ≠ 0 →
      (GitGutterCommand.is_enabled env debug qe s).eff.clear_calls = 1 ∧
      (GitGutterCommand.is_enabled env debug qe
          s).eff.invalidate_view_file_calls = 1 ∧
      (GitGutterCommand.is_enabled env debug qe s).eff.log_calls
        = (if debug then 1 else 0)) ∧
    (s.st = ((computeState env qe : Nat) : Int) →
      (GitGutterCommand.is_enabled env debug qe s).eff.clear_calls = 0 ∧
      (GitGutterCommand.is_enabled env debug qe
          s).eff.invalidate_view_file_calls = 0 ∧
      (GitGutterCommand.is_enabled env debug qe s).eff.log_calls = 0) := by
  by_cases h : s.st = ((computeState env qe : Nat) : Int) <;>
    by_cases h0 : computeState env qe = 0 <;>
    simp_all [GitGutterCommand.is_enabled]

/-- Witness for C2 on the disabled-in-settings view: the fresh session
transitions into state 1 with one clear call; the repeated call with the
updated session performs no clear call and returns the same boolean. -/
theorem C2_idempotent_witness :
    initSession.st ≠ ((computeState envDisabled none : Nat) : Int) ∧
    computeState envDisabled none ≠ 0 ∧
    (GitGutterCommand.is_enabled envDisabled true none
        initSession).eff.clear_calls = 1 ∧
    (GitGutterCommand.is_enabled envDisabled true none
        (GitGutterCommand.is_enabled envDisabled true none
          initSession).session).eff.clear_calls = 0 ∧
    ((GitGutterCommand.is_enabled envDisabled true none
          (GitGutterCommand.is_enabled envDisabled true none
            initSession).session).valid
      = (GitGutterCommand.is_enabled envDisabled true none
          initSession).valid) := by
  have h := C2_idempotent envDisabled true none initSession
  have h1 : initSession.st ≠ ((computeState envDisabled none : Nat) : Int) := by
    decide
  have h2 : computeState envDisabled none ≠ 0 := by decide
  exact ⟨h1, h2, (h.2.2.2.2.1 h1 h2).1, h.2.1, h.1⟩

/-- C3: whenever an events bitmask is passed, every `validate` flag handed
to the `work_tree` and `version` queries is true exactly when the mask
intersects LOAD, ACTIVATED or POST_SAVE. -/
theorem C3_validate_on_events (env : ViewEnv) (e : Nat) (b : Bool)
    (h : b ∈ (gitQueries env (some e)).1 ∨ b ∈ (gitQueries env (some e)).2) :
    (b = true ↔
      e &&& (events.LOAD ||| events.ACTIVATED ||| events.POST_SAVE) ≠ 0) := by
  have hb := mem_gitQueries env (some e) b h
  subst hb
  simp [validateFlag]

/-- Witness for C3: on the all-good view with a LOAD-only mask, the flag
`true` is handed to the queries and LOAD intersects the validate mask. -/
theorem C3_validate_on_events_witness :
    (true = true ↔
      events.LOAD &&&
        (events.LOAD ||| events.ACTIVATED ||| events.POST_SAVE) ≠ 0) :=
  C3_validate_on_events envAllGood events.LOAD true (by decide)

/-- C4 counterexample: the empty string is an action string absent from the
dispatch table, yet `run(action='')` does not fail — the falsy `action`
falls through to the default path, so the claim's universal quantification
over all absent action strings is false at `''`. -/
theorem C4_counterexample :
    GitGutterCommand.commands.lookup "" = none ∧
    (GitGutterCommand.run { action := some "", events := none }).isOk
      = true := by
  decide

/-- C4 amended: for every non-empty (truthy) action string absent from the
static dispatch table, `run` fails with the unhandled-sub-command assertion
and invokes no collaborator; for every action string present in the table,
`run` dispatches to exactly the mapped handler. -/
theorem C4_unknown_action (a : String) (ev : Option Nat) (ha : a ≠ "") :
    (GitGutterCommand.commands.lookup a = none →
      GitGutterCommand.run { action := some a, events := ev }
        = .error "Unhandled sub command") ∧
    (∀ f : Handler, GitGutterCommand.commands.lookup a = some f →
      GitGutterCommand.run { action := some a, events := ev }
        = .ok { dispatched_to := some (f, { action := some a, events := ev })
                invalidate_git_file_calls := 0
                show_diff_run_calls := 0 }) := by
  have ht : GitGutterCommand.truthyAction (some a) = true := by
    simp [GitGutterCommand.truthyAction, ha]
  constructor
  · intro hl
    simp [GitGutterCommand.run, ht, hl]
  · intro f hl
    simp [GitGutterCommand.run, ht, hl]

/-- Witness for C4 at the unknown action of the spec's test:
`run(action='not_a_real_action')` trips the assertion. -/
theorem C4_unknown_action_witness :
    GitGutterCommand.run { action := some "not_a_real_action", events := none }
      = .error "Unhandled sub command" :=
  (C4_unknown_action "not_a_real_action" none (by decide)).1 (by decide)

/-- C6: from any reachable session (the persisted setting agrees with
`_state`, or the object is fresh with `_state = -1`), after an evaluation
of `is_enabled` the persisted `git_gutter_is_enabled` setting equals the
returned boolean, which equals `computed state == 0`, and the agreement
invariant persists. -/
theorem C6_setting_invariant (env : ViewEnv) (debug : Bool) (qe : Option Nat)
    (s : Session)
    (hs : s.gg_enabled = some (decide (s.st = 0)) ∨ s.st = -1) :
    ((GitGutterCommand.is_enabled env debug qe s).session.gg_enabled
        = some (GitGutterCommand.is_enabled env debug qe s).valid) ∧
    ((GitGutterCommand.is_enabled env debug qe s).valid
        = decide (computeState env qe = 0)) ∧
    ((GitGutterCommand.is_enabled env debug qe s).session.gg_enabled
        = some (decide
            ((GitGutterCommand.is_enabled env debug qe s).session.st = 0))) := by
  by_cases h : s.st = ((computeState env qe : Nat) : Int)
  · rcases hs with hs | hs
    · simp_all [GitGutterCommand.is_enabled, Int.natCast_eq_zero]
    · exfalso
      rw [hs] at h
      omega
  · simp_all [GitGutterCommand.is_enabled, Int.natCast_eq_zero]

/-- Witness for C6: the first call on a fresh session for the all-good view
persists the returned boolean. -/
theorem C6_setting_invariant_witness :
    (GitGutterCommand.is_enabled envAllGood false none
        initSession).session.gg_enabled
      = some (GitGutterCommand.is_enabled envAllGood false none
          initSession).valid :=
  (C6_setting_invariant envAllGood false none initSession (Or.inr rfl)).1

/-- C8 counterexample: the claim speaks of ten wrapper commands, but the
source defines exactly nine wrapper subclasses with a `run` method (the
`show_diff_popup` action has no wrapper), so the count in the claim is
false. -/
theorem C8_counterexample :
    allWrappers.length = 9 ∧ ¬ allWrappers.length = 10 := by
  decide

/-- C8 amended: each of the nine wrapper commands is enabled exactly when
the persisted `git_gutter_is_enabled` view setting is true (read back, not
recomputed), and when run, each does nothing but re-invoke the umbrella
`git_gutter` command with its fixed action string. -/
theorem C8_wrapper_commands :
    (∀ w : WrapperCmd, w ∈ allWrappers) ∧
    allWrappers.length = 9 ∧
    (∀ gg : Option Bool,
      GitGutterBaseCommand.is_enabled gg = true ↔ gg = some true) ∧
    (∀ w : WrapperCmd,
      wrapperRun w
        = ("git_gutter",
            { action := some (wrapperAction w), events := none })) := by
  refine ⟨fun w => by cases w <;> decide, rfl, fun gg => ?_, fun w => rfl⟩
  cases gg with
  | none => simp [GitGutterBaseCommand.is_enabled]
  | some b => cases b <;> simp [GitGutterBaseCommand.is_enabled]

/-- Witness for C8: with the setting persisted true the wrappers are
enabled, and the next-change wrapper re-invokes `git_gutter` with the
`jump_to_next_change` action. -/
theorem C8_wrapper_commands_witness :
    GitGutterBaseCommand.is_enabled (some true) = true ∧
    wrapperRun .GitGutterNextChangeCommand
      = ("git_gutter",
          { action := some "jump_to_next_change", events := none }) :=
  ⟨(C8_wrapper_commands.2.2.1 (some true)).mpr rfl,
   C8_wrapper_commands.2.2.2 .GitGutterNextChangeCommand⟩

/-- C9: a fresh command object has `_state = -1`, distinct from every
reachable state code 0-9 (all computed states lie in 0..9), so the first
`is_enabled` call always takes the state-changed branch and persists
`git_gutter_is_enabled`; before that first call the wrapper commands'
`is_enabled` reads the absent setting as false. -/
theorem C9_fresh_state :
    initSession.st = -1 ∧
    initSession.gg_enabled = none ∧
    (∀ (env : ViewEnv) (qe : Option Nat), computeState env qe ≤ 9) ∧
    (∀ n : Nat, n ≤ 9 → initSession.st ≠ (n : Int)) ∧
    (∀ (env : ViewEnv) (debug : Bool) (qe : Option Nat),
      (GitGutterCommand.is_enabled env debug qe initSession).session.gg_enabled
        = some (GitGutterCommand.is_enabled env debug qe initSession).valid ∧
      (GitGutterCommand.is_enabled env debug qe initSession).session.st
        = ((computeState env qe : Nat) : Int)) ∧
    GitGutterBaseCommand.is_enabled initSession.gg_enabled = false := by
  refine ⟨rfl, rfl, computeState_le_nine, ?_, ?_, rfl⟩
  · intro n hn
    simp only [initSession]
    omega
  · intro env debug qe
    have h : initSession.st ≠ ((computeState env qe : Nat) : Int) := by
      simp only [initSession]
      omega
    simp [GitGutterCommand.is_enabled, h]

/-- Witness for C9: `-1` is distinct from state code 9, and the first call
on the all-good view persists the enabled flag. -/
theorem C9_fresh_state_witness :
    initSession.st ≠ ((9 : Nat) : Int) ∧
    (GitGutterCommand.is_enabled envAllGood false none
        initSession).session.gg_enabled = some true := by
  refine ⟨C9_fresh_state.2.2.2.1 9 (by decide), ?_⟩
  rw [(C9_fresh_state.2.2.2.2.1 envAllGood false none).1]
  rfl

end GitGutter
